import Mathlib

/-!
Shallow embedding of the TravelWishList persistence adapter (`src/lib/db.ts`)
and its HTTP resource handlers (the Next.js route handlers for the collection
and item resources), over an explicit store state.

Modelling conventions:
* The SQL table `travel_destinations` is a list of rows in insertion order
  plus the autoincrement counter for the surrogate key.
* Timestamps (`CURRENT_TIMESTAMP`) are abstract clock values: each operation
  that writes takes the current time `now : Nat` as a parameter.
* JS numbers for `id`/`rank` are modelled as `Int`; the decimal
  `latitude`/`longitude` columns as `Rat`.
* A JS value that may be `undefined` is an `Option`; `null` for `image_url`
  is `none`.
* `ORDER BY rank ASC` is modelled as a stable sort on the `rank` column.
* The `catch` branches of the adapter are modelled by `...F` variants taking
  a flag saying whether the backend throws during the operation.
-/

/-- A stored row of `travel_destinations` (interface `TravelDestination`). -/
structure Row where
  id : Int
  rank : Int
  destination : String
  country : String
  latitude : Rat
  longitude : Rat
  reason : String
  budget : String
  timeline : String
  image_url : Option String
  created_at : Nat
  updated_at : Nat
deriving DecidableEq

/-- Creation payload (interface `NewTravelDestination`); `image_url?: string`
may be absent (`none`). -/
structure NewDest where
  rank : Int
  destination : String
  country : String
  latitude : Rat
  longitude : Rat
  reason : String
  budget : String
  timeline : String
  image_url : Option String
deriving DecidableEq

/-- `Partial<NewTravelDestination>`: every field may be absent (`none`). -/
structure DestPatch where
  rank : Option Int := none
  destination : Option String := none
  country : Option String := none
  latitude : Option Rat := none
  longitude : Option Rat := none
  reason : Option String := none
  budget : Option String := none
  timeline : Option String := none
  image_url : Option String := none
deriving DecidableEq

/-- One `{id, rank}` pair of an `updateRanks` batch. -/
structure RankPair where
  id : Int
  rank : Int
deriving DecidableEq

/-- The persistent store: table rows in insertion order plus the
autoincrement (`AUTOINCREMENT` / `SERIAL`) counter for `id`. -/
structure St where
  rows : List Row
  nextId : Int
deriving DecidableEq

/-- The freshly created (empty) table: ids start at 1. -/
def St.empty : St := ⟨[], 1⟩

/-- Well-formed store: every stored id is below the autoincrement counter
(the primary-key generator never reuses or repeats ids). -/
def WF (s : St) : Bool :=
  s.rows.all (fun r => r.id < s.nextId)

/-- JS `x || null` on the optional `image_url` string: `undefined` and the
empty string are falsy, so both store as SQL `NULL` (`item.image_url || null`
in `create`). -/
def orNull (o : Option String) : Option String :=
  match o with
  | none => none
  | some u => if u = "" then none else some u

/-- Rank comparison used by `ORDER BY rank ASC`. -/
def rankLe (a b : Row) : Prop := a.rank ≤ b.rank

instance : DecidableRel rankLe :=
  fun a b => inferInstanceAs (Decidable (a.rank ≤ b.rank))

instance : IsTotal Row rankLe := ⟨fun a b => Int.le_total a.rank b.rank⟩

instance : IsTrans Row rankLe := ⟨fun _ _ _ h h' => le_trans h h'⟩

/-- `getAll`: `SELECT * FROM travel_destinations ORDER BY rank ASC`
(success path). The sort is stable on `rank`. -/
def getAll (s : St) : List Row :=
  List.insertionSort rankLe s.rows

/-- `getById`: `SELECT * FROM travel_destinations WHERE id = ?` — the first
(and, ids being unique, only) row with that id; `undefined` is `none`
(success path). -/
def getById (s : St) (i : Int) : Option Row :=
  s.rows.find? (fun r => r.id = i)

/-- `create` (success path): `INSERT` of the payload with
`item.image_url || null`, the autoincremented `id`, and
`created_at`/`updated_at` defaulting to the insertion time; the inserted row
is then re-read by `lastInsertRowid` and returned. -/
def create (s : St) (item : NewDest) (now : Nat) : Row × St :=
  let r : Row :=
    { id := s.nextId
      rank := item.rank
      destination := item.destination
      country := item.country
      latitude := item.latitude
      longitude := item.longitude
      reason := item.reason
      budget := item.budget
      timeline := item.timeline
      image_url := orNull item.image_url
      created_at := now
      updated_at := now }
  (r, { rows := s.rows ++ [r], nextId := s.nextId + 1 })

/-- The row written by `update`'s `SET` list: each column takes the supplied
value when the patch field is not `undefined`, else the existing value;
`updated_at` is refreshed to `CURRENT_TIMESTAMP`; `id` and `created_at` are
not in the `SET` list. -/
def applyPatch (p : DestPatch) (existing : Row) (now : Nat) : Row :=
  { id := existing.id
    rank := p.rank.getD existing.rank
    destination := p.destination.getD existing.destination
    country := p.country.getD existing.country
    latitude := p.latitude.getD existing.latitude
    longitude := p.longitude.getD existing.longitude
    reason := p.reason.getD existing.reason
    budget := p.budget.getD existing.budget
    timeline := p.timeline.getD existing.timeline
    image_url :=
      match p.image_url with
      | none => existing.image_url
      | some u => some u
    created_at := existing.created_at
    updated_at := now }

/-- `update` (success path): read the existing row (`undefined` if the id is
unknown, without creating anything), write every column per `applyPatch`
(`UPDATE ... WHERE id = ?`), then re-read by id. -/
def update (s : St) (i : Int) (p : DestPatch) (now : Nat) : Option Row × St :=
  match getById s i with
  | none => (none, s)
  | some existing =>
      let s' : St :=
        { rows := s.rows.map (fun r => if r.id = i then applyPatch p existing now else r)
          nextId := s.nextId }
      (getById s' i, s')

/-- `remove` (success path): `DELETE FROM travel_destinations WHERE id = ?`;
true iff `result.changes > 0`, i.e. some row matched. -/
def remove (s : St) (i : Int) : Bool × St :=
  let remaining := s.rows.filter (fun r => !decide (r.id = i))
  (decide (0 < s.rows.countP (fun r => decide (r.id = i))),
   { rows := remaining, nextId := s.nextId })

/-- One statement of the `updateRanks` loop:
`UPDATE travel_destinations SET rank = ?, updated_at = CURRENT_TIMESTAMP
WHERE id = ?`, applied to one row. -/
def setRank (now : Nat) (p : RankPair) (r : Row) : Row :=
  if r.id = p.id then { r with rank := p.rank, updated_at := now } else r

/-- The `updateRanks` loop: each pair is applied as an independent point
update over the whole table, in batch order. -/
def applyPairs (now : Nat) (ps : List RankPair) (rows : List Row) : List Row :=
  ps.foldl (fun acc p => acc.map (setRank now p)) rows

/-- `updateRanks` (success path): apply each `(id, rank)` pair as an
independent `UPDATE`; a pair whose id matches no row is a silent no-op;
returns `true` when the batch ran without a backend error. -/
def updateRanks (s : St) (ps : List RankPair) (now : Nat) : Bool × St :=
  (true, { rows := applyPairs now ps s.rows, nextId := s.nextId })

/-! ### Failure-path variants

`db.ts` wraps every operation in `try/catch`. The `...F` variants model a
backend that throws during the operation (`fail = true`), reproducing only
what the `catch` branch returns; the plain operations above are the
`fail = false` instances. -/

/-- `getAll` with a throwing backend: `catch` returns `[]`. -/
def getAllF (fail : Bool) (s : St) : List Row :=
  if fail then [] else getAll s

/-- `getById` with a throwing backend: `catch` returns `undefined`. -/
def getByIdF (fail : Bool) (s : St) (i : Int) : Option Row :=
  if fail then none else getById s i

/-- `create` with a throwing backend: `catch` rethrows, so the caller sees an
exception (`Except.error`) and nothing is inserted. -/
def createF (fail : Bool) (s : St) (item : NewDest) (now : Nat) :
    Except Unit (Row × St) :=
  if fail then Except.error () else Except.ok (create s item now)

/-- `update` with a throwing backend: the single `UPDATE` statement fails,
nothing changes, and `catch` returns `undefined` — indistinguishable from a
not-found id for the caller. -/
def updateF (fail : Bool) (s : St) (i : Int) (p : DestPatch) (now : Nat) :
    Option Row × St :=
  if fail then (none, s) else update s i p now

/-- `remove` with a throwing backend: `catch` returns `false`. -/
def removeF (fail : Bool) (s : St) (i : Int) : Bool × St :=
  if fail then (false, s) else remove s i

/-- `updateRanks` with a backend that throws at pair index `k` (`failAt =
some k`): the first `k` pairs are already applied (no transaction, no
rollback), the loop aborts and `catch` returns `false`. -/
def updateRanksF (failAt : Option Nat) (s : St) (ps : List RankPair) (now : Nat) :
    Bool × St :=
  match failAt with
  | none => updateRanks s ps now
  | some k => (false, { rows := applyPairs now (ps.take k) s.rows, nextId := s.nextId })

/-! ### HTTP resource layer

The route handlers of `app/api` over the adapter. A JSON body is modelled
with every field optional; `none` is an absent (`undefined`) field. The
response is a status code plus a body. -/

/-- A JSON request body for POST/PUT: absent fields are `none`. -/
structure ReqBody where
  rank : Option Int := none
  destination : Option String := none
  country : Option String := none
  latitude : Option Rat := none
  longitude : Option Rat := none
  reason : Option String := none
  budget : Option String := none
  timeline : Option String := none
  image_url : Option String := none
deriving DecidableEq

/-- A JSON response body. -/
inductive RespBody where
  | record (r : Row)
  | records (rs : List Row)
  | errMsg (msg : String)
  | success
deriving DecidableEq

/-- An HTTP response: status code and JSON body. -/
structure Resp where
  status : Nat
  body : RespBody
deriving DecidableEq

/-- JS truthiness of an optional string: `!body.destination` is true exactly
when the field is `undefined` or the empty string. -/
def falsyStr (o : Option String) : Bool :=
  match o with
  | none => true
  | some u => u = ""

/-- JS `x || d` on an optional number (`undefined` and `0` are falsy). -/
def orNum (o : Option Int) (d : Int) : Int :=
  match o with
  | none => d
  | some x => if x = 0 then d else x

/-- JS `x || d` on an optional decimal (`undefined` and `0` are falsy). -/
def orRat (o : Option Rat) (d : Rat) : Rat :=
  match o with
  | none => d
  | some x => if x = 0 then d else x

/-- JS `x || d` on an optional string (`undefined` and `""` are falsy). -/
def orStr (o : Option String) (d : String) : String :=
  match o with
  | none => d
  | some u => if u = "" then d else u

/-- The creation payload the POST handler passes to `create`: `rank` defaults
to 1, the coordinates to 0, the text fields to the empty string (all via
JS `||`). In the branch where this is used, `destination`/`country` are
present and non-empty, so their `getD ""` never fires. -/
def postItem (body : ReqBody) : NewDest :=
  { rank := orNum body.rank 1
    destination := body.destination.getD ""
    country := body.country.getD ""
    latitude := orRat body.latitude 0
    longitude := orRat body.longitude 0
    reason := orStr body.reason ""
    budget := orStr body.budget ""
    timeline := orStr body.timeline ""
    image_url := some (orStr body.image_url "") }

/-- `POST /api/destinations` over a possibly-failing backend: 400 when
`destination` or `country` is falsy; otherwise `create`, 201 with the
created record, or 500 when the adapter rethrows. -/
def POSTdestF (fail : Bool) (s : St) (body : ReqBody) (now : Nat) : Resp × St :=
  if falsyStr body.destination || falsyStr body.country then
    ({ status := 400, body := RespBody.errMsg "Destination and country are required" }, s)
  else
    match createF fail s (postItem body) now with
    | Except.error _ =>
        ({ status := 500, body := RespBody.errMsg "Failed to create travel destination" }, s)
    | Except.ok (r, s') => ({ status := 201, body := RespBody.record r }, s')

/-- `POST /api/destinations` (healthy backend). -/
def POSTdest (s : St) (body : ReqBody) (now : Nat) : Resp × St :=
  POSTdestF false s body now

/-- `GET /api/destinations` over a possibly-failing backend: always 200 with
the list (`getAll` degrades to `[]` on failure, so the handler's own catch is
not reached). -/
def GETdestF (fail : Bool) (s : St) : Resp :=
  { status := 200, body := RespBody.records (getAllF fail s) }

/-- `GET /api/destinations` (healthy backend). -/
def GETdest (s : St) : Resp :=
  GETdestF false s

/-- `PATCH /api/destinations` over a possibly-failing backend: `ranks` absent
or not an array is `none` (400); otherwise 200 with a success flag, or 500
when `updateRanks` reports failure. -/
def PATCHdestF (failAt : Option Nat) (s : St) (ranks : Option (List RankPair))
    (now : Nat) : Resp × St :=
  match ranks with
  | none => ({ status := 400, body := RespBody.errMsg "Ranks array is required" }, s)
  | some ps =>
      let res := updateRanksF failAt s ps now
      if res.1 then ({ status := 200, body := RespBody.success }, res.2)
      else ({ status := 500, body := RespBody.errMsg "Failed to update ranks" }, res.2)

/-- `PATCH /api/destinations` (healthy backend). -/
def PATCHdest (s : St) (ranks : Option (List RankPair)) (now : Nat) : Resp × St :=
  PATCHdestF none s ranks now

/-! ### The item route's `parseInt(id)`

The dynamic segment is a string and goes through JS `parseInt`: leading
whitespace, an optional sign, a `0x`/`0X` hex prefix, then the longest run
of digits of the radix; no digits at all gives `NaN`, modelled as `none`.
A `NaN` id compares equal to no stored id in either backend, so a `none`
parse behaves as an id matching no row. -/

/-- Value of one digit character under the given radix. -/
def digitVal? (radix : Nat) (c : Char) : Option Nat :=
  if '0' ≤ c ∧ c ≤ '9' then
    let v := c.toNat - '0'.toNat
    if v < radix then some v else none
  else if 'a' ≤ c ∧ c ≤ 'z' then
    let v := c.toNat - 'a'.toNat + 10
    if v < radix then some v else none
  else if 'A' ≤ c ∧ c ≤ 'Z' then
    let v := c.toNat - 'A'.toNat + 10
    if v < radix then some v else none
  else none

/-- JS `parseInt(s)` with no radix argument; `none` is `NaN`. -/
def jsParseInt (t : String) : Option Int :=
  let cs0 := t.toList.dropWhile (fun c => c.isWhitespace)
  let sc : Int × List Char :=
    match cs0 with
    | '-' :: rest => (-1, rest)
    | '+' :: rest => (1, rest)
    | _ => (1, cs0)
  let rc : Nat × List Char :=
    match sc.2 with
    | '0' :: 'x' :: rest => (16, rest)
    | '0' :: 'X' :: rest => (16, rest)
    | _ => (10, sc.2)
  let ds := rc.2.takeWhile (fun c => (digitVal? rc.1 c).isSome)
  if ds.isEmpty then none
  else
    some (sc.1 * (ds.foldl (fun acc c => acc * rc.1 + (digitVal? rc.1 c).getD 0) 0 : Nat))

/-- `GET /api/destinations/[id]` over a possibly-failing backend:
`getById(parseInt(id))`, 404 when the result is `undefined` (unknown id,
unparsable segment, or backend failure), else 200 with the record. -/
def GETitemF (fail : Bool) (s : St) (seg : String) : Resp :=
  let item :=
    match jsParseInt seg with
    | none => none
    | some i => getByIdF fail s i
  match item with
  | none => { status := 404, body := RespBody.errMsg "Destination not found" }
  | some r => { status := 200, body := RespBody.record r }

/-- `GET /api/destinations/[id]` (healthy backend). -/
def GETitem (s : St) (seg : String) : Resp :=
  GETitemF false s seg

/-- `PUT /api/destinations/[id]` over a possibly-failing backend: 400 when
`destination` or `country` is falsy, else `update(parseInt(id), body)`;
`undefined` (unknown id, unparsable segment, or backend failure) is 404,
else 200 with the updated record. -/
def PUTitemF (fail : Bool) (s : St) (seg : String) (body : ReqBody) (now : Nat) :
    Resp × St :=
  if falsyStr body.destination || falsyStr body.country then
    ({ status := 400, body := RespBody.errMsg "Destination and country are required" }, s)
  else
    let p : DestPatch :=
      { rank := body.rank
        destination := body.destination
        country := body.country
        latitude := body.latitude
        longitude := body.longitude
        reason := body.reason
        budget := body.budget
        timeline := body.timeline
        image_url := body.image_url }
    let res :=
      match jsParseInt seg with
      | none => (none, s)
      | some i => updateF fail s i p now
    match res with
    | (none, s') => ({ status := 404, body := RespBody.errMsg "Destination not found" }, s')
    | (some r, s') => ({ status := 200, body := RespBody.record r }, s')

/-- `PUT /api/destinations/[id]` (healthy backend). -/
def PUTitem (s : St) (seg : String) (body : ReqBody) (now : Nat) : Resp × St :=
  PUTitemF false s seg body now

/-- `DELETE /api/destinations/[id]` over a possibly-failing backend:
`remove(parseInt(id))`; `false` (nothing deleted, or backend failure) is
404, else 200 with a success flag. -/
def DELETEitemF (fail : Bool) (s : St) (seg : String) : Resp × St :=
  let res :=
    match jsParseInt seg with
    | none => (false, s)
    | some i => removeF fail s i
  match res with
  | (false, s') => ({ status := 404, body := RespBody.errMsg "Destination not found" }, s')
  | (true, s') => ({ status := 200, body := RespBody.success }, s')

/-- `DELETE /api/destinations/[id]` (healthy backend). -/
def DELETEitem (s : St) (seg : String) : Resp × St :=
  DELETEitemF false s seg

/-! ### Operation sequences

An abstract operation against the store, for stating invariants over any
sequence of adapter / handler calls. -/

/-- One operation of a run: the adapter's `create`, `update`, `updateRanks`,
`remove`, or a `create` going through the POST handler's defaulting. -/
inductive Op where
  | createOp (item : NewDest) (now : Nat)
  | postOp (body : ReqBody) (now : Nat)
  | updateOp (i : Int) (p : DestPatch) (now : Nat)
  | ranksOp (ps : List RankPair) (now : Nat)
  | removeOp (i : Int)

/-- Effect of one operation on the store. -/
def runOp (s : St) : Op → St
  | Op.createOp item now => (create s item now).2
  | Op.postOp body now => (POSTdest s body now).2
  | Op.updateOp i p now => (update s i p now).2
  | Op.ranksOp ps now => (updateRanks s ps now).2
  | Op.removeOp i => (remove s i).2

/-- Effect of a sequence of operations on the store. -/
def runOps (s : St) (ops : List Op) : St :=
  ops.foldl runOp s

/-- Every rank value an operation supplies is at least 1 (a POST may also
omit `rank` or send `0`, both of which the handler's `body.rank || 1`
defaults to 1). -/
def rankOK : Op → Bool
  | Op.createOp item _ => decide (1 ≤ item.rank)
  | Op.postOp body _ =>
      match body.rank with
      | none => true
      | some x => decide (x = 0) || decide (1 ≤ x)
  | Op.updateOp _ p _ =>
      match p.rank with
      | none => true
      | some x => decide (1 ≤ x)
  | Op.ranksOp ps _ => ps.all (fun q => 1 ≤ q.rank)
  | Op.removeOp _ => true

/-- Every stored record has rank at least 1. -/
def ranksGE1 (s : St) : Bool :=
  s.rows.all (fun r => 1 ≤ r.rank)

/-- The item route's id segment matches no stored record: it parses to `NaN`,
or to an integer that is no stored id. -/
def idUnknown (s : St) (seg : String) : Bool :=
  match jsParseInt seg with
  | none => true
  | some i => (getById s i).isNone

/-! ### Rank reordering helpers -/

/-- Everything of a row except `updated_at` (its identity and payload, and
its position-determining `rank`). -/
def stripTime (r : Row) :
    Int × Int × String × String × Rat × Rat × String × String × String × Option String × Nat :=
  (r.id, r.rank, r.destination, r.country, r.latitude, r.longitude,
   r.reason, r.budget, r.timeline, r.image_url, r.created_at)

/-- Rank comparison on stripped rows (the second component is the rank). -/
def keyLe
    (a b : Int × Int × String × String × Rat × Rat × String × String × String × Option String × Nat) :
    Prop :=
  a.2.1 ≤ b.2.1

instance : DecidableRel keyLe :=
  fun a b => inferInstanceAs (Decidable (a.2.1 ≤ b.2.1))

/-- The whole `updateRanks` batch applied to a single row. -/
def rowApply (now : Nat) (ps : List RankPair) (r : Row) : Row :=
  ps.foldl (fun r p => setRank now p r) r

/-- The rank a row with id `i` and current rank `d` has after the batch: the
rank of the last matching pair, or `d` when no pair matches. -/
def finalRank (ps : List RankPair) (i : Int) (d : Int) : Int :=
  ps.foldl (fun d p => if i = p.id then p.rank else d) d

/-- A stripped row: the tuple type `stripTime` produces. -/
abbrev RowKey : Type :=
  Int × Int × String × String × Rat × Rat × String × String × String × Option String × Nat

/-- Effect of an `updateRanks` batch on a stripped row: the id picks the
final rank, everything else is untouched. -/
def keyUpd (ps : List RankPair) (t : RowKey) : RowKey :=
  (t.1, finalRank ps t.1 t.2.1, t.2.2)

/-! ### The two physical backends' value shapes (round-trip claim)

`better-sqlite3` returns `REAL` columns as JS numbers; the Vercel Postgres
driver returns `DECIMAL(10,8)` / `DECIMAL(11,8)` columns as strings (see the
comment on `normalizeRow` in `db.ts`), which `normalizeRow` converts back to
numbers with `parseFloat`. -/

/-- A raw column value as surfaced by a database driver. -/
inductive SqlVal where
  | num (q : Rat)
  | str (t : String)
  | vnull
deriving DecidableEq

/-- Digits of a decimal string prefix. -/
def decDigits (cs : List Char) : List Char :=
  cs.takeWhile (fun c => c.isDigit)

/-- Numeric value of a run of decimal digit characters. -/
def digitsToNat (cs : List Char) : Nat :=
  cs.foldl (fun acc c => acc * 10 + (c.toNat - '0'.toNat)) 0

/-- The textual parts `parseFloat` reads off a decimal string: sign, value
of the integer digits, value of the fraction digits, number of fraction
digits. -/
def floatParts (t : String) : Int × Nat × Nat × Nat :=
  let cs := t.toList.dropWhile (fun c => c.isWhitespace)
  let sc : Int × List Char :=
    match cs with
    | '-' :: rest => (-1, rest)
    | '+' :: rest => (1, rest)
    | _ => (1, cs)
  let ip := decDigits sc.2
  let rest := sc.2.drop ip.length
  let fp :=
    match rest with
    | '.' :: r2 => decDigits r2
    | _ => []
  (sc.1, digitsToNat ip, digitsToNat fp, fp.length)

/-- JS `parseFloat` restricted to well-formed decimal strings (optional
whitespace and sign, integer digits, optional point and fraction digits) —
the only shape the Postgres driver produces for a `DECIMAL` column. -/
def jsParseFloat (t : String) : Rat :=
  let c := floatParts t
  (c.1 : Rat) * ((c.2.1 : Rat) + (c.2.2.1 : Rat) / ((10 : Rat) ^ c.2.2.2))

/-- The exact integer a `DECIMAL(_, 8)` column stores: the value scaled by
10^8. -/
def scaled8 (q : Rat) : Int :=
  (q * ((10 : Rat)) ^ 8).num

/-- How the Postgres driver renders the scaled `DECIMAL(_, 8)` integer:
sign, integer digits, point, 8 fraction digits. -/
def decString8 (m : Int) : String :=
  let a : Nat := m.natAbs
  let ip : Nat := a / 10 ^ 8
  let fp : Nat := a % 10 ^ 8
  let fpStr := String.mk (Nat.toDigits 10 fp)
  let pad := String.mk (List.replicate (8 - fpStr.length) '0')
  (if m < 0 then "-" else "") ++ String.mk (Nat.toDigits 10 ip) ++ "." ++ pad ++ fpStr

/-- `normalizeRow` on one decimal column: a string (as Postgres returns
`DECIMAL`) becomes a number via `parseFloat`; a number is left alone (the
SQLite path). -/
def normalizeVal : SqlVal → SqlVal
  | SqlVal.str t => SqlVal.num (jsParseFloat t)
  | v => v

/-- What the local SQLite backend hands back for a `REAL` coordinate column:
already a number. -/
def sqliteVal (q : Rat) : SqlVal :=
  SqlVal.num q

/-- What the hosted Postgres backend hands back for a `DECIMAL` coordinate
column before normalization: a string. -/
def pgValRaw (q : Rat) : SqlVal :=
  SqlVal.str (decString8 (scaled8 q))

/-- The adapter's read path on Postgres: the raw driver value normalized by
`normalizeRow`. -/
def pgVal (q : Rat) : SqlVal :=
  normalizeVal (pgValRaw q)

/-! ### Concrete fixtures for witnesses and counterexamples -/

/-- The round-trip creation payload: Tokyo at (35.6762, 139.6503). -/
def tokyoItem : NewDest :=
  { rank := 1
    destination := "Tokyo"
    country := "Japan"
    latitude := (356762 : Rat) / 10000
    longitude := (1396503 : Rat) / 10000
    reason := "food"
    budget := ""
    timeline := "someday"
    image_url := none }

/-- A minimal valid POST body. -/
def exBody : ReqBody :=
  { destination := some "Tokyo", country := some "Japan" }

/-- A valid PUT body. -/
def putBody : ReqBody :=
  { destination := some "Paris", country := some "France" }

/-- A one-row store. -/
def row1 : Row :=
  { id := 1
    rank := 1
    destination := "Tokyo"
    country := "Japan"
    latitude := 35
    longitude := 139
    reason := "food"
    budget := ""
    timeline := "someday"
    image_url := none
    created_at := 1
    updated_at := 1 }

/-- A store holding exactly `row1`. -/
def s1 : St := ⟨[row1], 2⟩

/-! ### Helper lemmas -/

/-- `find?` skips a prefix in which nothing matches. -/
theorem find?_append_of_none {α : Type} (p : α → Bool) (l1 l2 : List α)
    (h : l1.find? p = none) : (l1 ++ l2).find? p = l2.find? p := by
  induction l1 with
  | nil => rfl
  | cons x xs ih =>
    cases hx : p x with
    | true =>
      rw [List.find?_cons_of_pos xs hx] at h
      exact absurd h (by simp)
    | false =>
      rw [List.find?_cons_of_neg xs (by simp [hx])] at h
      rw [List.cons_append, List.find?_cons_of_neg (xs ++ l2) (by simp [hx])]
      exact ih h

/-- In a well-formed store, the freshly inserted row is the one `getById`
finds under its id. -/
theorem getById_create (s : St) (item : NewDest) (now : Nat) (hwf : WF s = true) :
    getById (create s item now).2 (create s item now).1.id =
      some (create s item now).1 := by
  have hnone : s.rows.find? (fun r => decide (r.id = s.nextId)) = none := by
    rw [List.find?_eq_none]
    intro a ha
    have h1 : a.id < s.nextId := of_decide_eq_true (List.all_eq_true.mp hwf a ha)
    simp only [decide_eq_true_eq]
    omega
  show List.find? (fun r => decide (r.id = s.nextId))
      (s.rows ++ [(create s item now).1]) = some (create s item now).1
  rw [find?_append_of_none _ _ _ hnone]
  simp [List.find?, create]

/-- C4: `list()` returns the current records sorted ascending by `rank`:
after any sequence of create, POST, update, updateRanks and remove
operations (indeed in every store state), `getAll` is sorted by `rank` and
is a permutation of the stored rows. -/
theorem c4_list_sorted_by_rank (s : St) (ops : List Op) :
    List.Sorted rankLe (getAll (runOps s ops)) ∧
      (getAll (runOps s ops)).Perm (runOps s ops).rows :=
  ⟨List.sorted_insertionSort rankLe (runOps s ops).rows,
   List.perm_insertionSort rankLe (runOps s ops).rows⟩

/-- C1: for a creation payload with non-empty `destination` and `country`,
`create` followed by `getById` on the returned record's id yields a record
whose payload fields equal the input (with `image_url` normalized by the
`|| null` default) and whose `id`, `created_at` and `updated_at` are
populated with the fresh id and the insertion time. -/
theorem c1_create_then_getById (s : St) (item : NewDest) (now : Nat)
    (hwf : WF s = true) (_hdest : item.destination ≠ "") (_hcountry : item.country ≠ "") :
    getById (create s item now).2 (create s item now).1.id =
        some (create s item now).1 ∧
      (create s item now).1.destination = item.destination ∧
      (create s item now).1.country = item.country ∧
      (create s item now).1.latitude = item.latitude ∧
      (create s item now).1.longitude = item.longitude ∧
      (create s item now).1.reason = item.reason ∧
      (create s item now).1.budget = item.budget ∧
      (create s item now).1.timeline = item.timeline ∧
      (create s item now).1.image_url = orNull item.image_url ∧
      (create s item now).1.id = s.nextId ∧
      (create s item now).1.created_at = now ∧
      (create s item now).1.updated_at = now :=
  ⟨getById_create s item now hwf, rfl, rfl, rfl, rfl, rfl, rfl, rfl, rfl, rfl, rfl, rfl⟩

/-- Witness for C1 at a concrete input: the Tokyo payload inserted into the
empty store at time 5 is found again under its id. -/
theorem c1_witness :
    getById (create St.empty tokyoItem 5).2 (create St.empty tokyoItem 5).1.id =
        some (create St.empty tokyoItem 5).1 ∧
      (create St.empty tokyoItem 5).1.id = St.empty.nextId :=
  ⟨(c1_create_then_getById St.empty tokyoItem 5 (by decide) (by decide) (by decide)).1,
   (c1_create_then_getById St.empty tokyoItem 5 (by decide) (by decide) (by decide)).2.2.2.2.2.2.2.2.2.1⟩

/-- Overwriting the matching rows rewrites what `find?` sees: when some row
matches the id and the replacement also carries that id, the lookup finds
the replacement. -/
theorem find?_map_overwrite (i : Int) (g : Row) (hg : g.id = i) :
    ∀ (rows : List Row) (r0 : Row),
      rows.find? (fun r => decide (r.id = i)) = some r0 →
      (rows.map (fun x => if x.id = i then g else x)).find?
          (fun r => decide (r.id = i)) = some g := by
  intro rows
  induction rows with
  | nil => intro r0 h; simp [List.find?] at h
  | cons x xs ih =>
    intro r0 h
    by_cases hx : x.id = i
    · simp only [List.map_cons, if_pos hx]
      exact List.find?_cons_of_pos _ (by simp [hg])
    · rw [List.find?_cons_of_neg xs (by simp [hx])] at h
      simp only [List.map_cons, if_neg hx]
      rw [List.find?_cons_of_neg _ (by simp [hx])]
      exact ih r0 h

/-- C6: an `update` with the empty partial leaves every field except
`updated_at` unchanged — `id`, `rank`, `destination`, `country`,
`latitude`, `longitude`, `reason`, `budget`, `timeline`, `image_url` and
`created_at` all retain their prior values — and `updated_at` is refreshed
to the (strictly later) update time, so it strictly increases. -/
theorem c6_update_empty_patch (s : St) (i : Int) (now : Nat) (r : Row)
    (hr : getById s i = some r) (ht : r.updated_at < now) :
    ∃ r', (update s i ({} : DestPatch) now).1 = some r' ∧
      r'.id = r.id ∧ r'.rank = r.rank ∧ r'.destination = r.destination ∧
      r'.country = r.country ∧ r'.latitude = r.latitude ∧
      r'.longitude = r.longitude ∧ r'.reason = r.reason ∧
      r'.budget = r.budget ∧ r'.timeline = r.timeline ∧
      r'.image_url = r.image_url ∧ r'.created_at = r.created_at ∧
      r'.updated_at = now ∧ r.updated_at < r'.updated_at := by
  have hrid : r.id = i := by
    have := List.find?_some hr
    exact of_decide_eq_true this
  refine ⟨applyPatch {} r now, ?_, rfl, rfl, rfl, rfl, rfl, rfl, rfl, rfl, rfl, rfl, rfl,
    rfl, ht⟩
  show (update s i ({} : DestPatch) now).1 = some (applyPatch {} r now)
  unfold update
  rw [hr]
  exact find?_map_overwrite i (applyPatch {} r now) hrid s.rows r hr

/-- Witness for C6 at a concrete input: the empty update on the one-row
store at time 7 keeps every field of `row1` and bumps `updated_at`. -/
theorem c6_witness :
    ∃ r', (update s1 1 ({} : DestPatch) 7).1 = some r' ∧
      r'.id = row1.id ∧ r'.rank = row1.rank ∧ r'.destination = row1.destination ∧
      r'.country = row1.country ∧ r'.latitude = row1.latitude ∧
      r'.longitude = row1.longitude ∧ r'.reason = row1.reason ∧
      r'.budget = row1.budget ∧ r'.timeline = row1.timeline ∧
      r'.image_url = row1.image_url ∧ r'.created_at = row1.created_at ∧
      r'.updated_at = 7 ∧ row1.updated_at < r'.updated_at :=
  c6_update_empty_patch s1 1 7 row1 rfl (by decide)

/-- Bool-level invariant unfolded to a membership statement. -/
theorem ranksGE1_iff (s : St) : ranksGE1 s = true ↔ ∀ r ∈ s.rows, 1 ≤ r.rank := by
  simp [ranksGE1]

/-- C2, as stated, is false: starting from the empty store, a POST (whose
handler defaults the rank to 1) followed by `updateRanks` with the pair
`{id := 1, rank := 0}` — an "arbitrary integer rank" — leaves a stored
record with rank 0 < 1. -/
theorem c2_counterexample :
    ∃ r ∈ (updateRanks (POSTdest St.empty exBody 1).2 [⟨1, 0⟩] 2).2.rows,
      r.rank < 1 := by decide

/-- `create` preserves the rank invariant when the payload rank is ≥ 1. -/
theorem ranksGE1_create (s : St) (item : NewDest) (now : Nat)
    (h : ranksGE1 s = true) (hi : 1 ≤ item.rank) :
    ranksGE1 (create s item now).2 = true := by
  rw [ranksGE1_iff] at h ⊢
  intro r hr
  simp only [create] at hr
  rcases List.mem_append.mp hr with h1 | h1
  · exact h r h1
  · rw [List.mem_singleton] at h1
    subst h1
    exact hi

/-- `POSTdest` preserves the rank invariant when the body's rank, if sent
and nonzero, is ≥ 1 (absent and zero ranks default to 1). -/
theorem ranksGE1_post (s : St) (body : ReqBody) (now : Nat)
    (h : ranksGE1 s = true)
    (hb : ∀ x, body.rank = some x → x = 0 ∨ 1 ≤ x) :
    ranksGE1 (POSTdest s body now).2 = true := by
  unfold POSTdest POSTdestF
  cases hv : falsyStr body.destination || falsyStr body.country with
  | true => simpa [hv] using h
  | false =>
    simp only [hv, Bool.false_eq_true, if_false, createF]
    apply ranksGE1_create s (postItem body) now h
    simp only [postItem, orNum]
    cases hbr : body.rank with
    | none => decide
    | some x =>
      rcases hb x hbr with h0 | h1
      · simp [h0]
      · have : x ≠ 0 := by omega
        simp [this, h1]

/-- `update` preserves the rank invariant when the patch rank, if sent,
is ≥ 1. -/
theorem ranksGE1_update (s : St) (i : Int) (p : DestPatch) (now : Nat)
    (h : ranksGE1 s = true) (hp : ∀ x, p.rank = some x → 1 ≤ x) :
    ranksGE1 (update s i p now).2 = true := by
  unfold update
  cases hg : getById s i with
  | none => simpa using h
  | some existing =>
    rw [ranksGE1_iff] at h ⊢
    intro r hr
    simp only [List.mem_map] at hr
    obtain ⟨a, ha, rfl⟩ := hr
    by_cases hai : a.id = i
    · simp only [hai, if_true, applyPatch]
      cases hpr : p.rank with
      | none => exact h existing (List.mem_of_find?_eq_some hg)
      | some x => exact hp x hpr
    · simp only [hai, if_false]
      exact h a ha

/-- The `updateRanks` loop preserves the rank invariant when every pair's
rank is ≥ 1. -/
theorem ranksGE1_applyPairs (now : Nat) (ps : List RankPair) :
    ∀ (rows : List Row), (∀ q ∈ ps, 1 ≤ q.rank) → (∀ r ∈ rows, 1 ≤ r.rank) →
    ∀ r ∈ applyPairs now ps rows, 1 ≤ r.rank := by
  induction ps with
  | nil => intro rows _ h; simpa [applyPairs] using h
  | cons q qs ih =>
    intro rows hps h
    show ∀ r ∈ applyPairs now qs (rows.map (setRank now q)), 1 ≤ r.rank
    refine ih (rows.map (setRank now q))
      (fun x hx => hps x (List.mem_cons_of_mem q hx)) ?_
    intro r hr
    simp only [List.mem_map] at hr
    obtain ⟨a, ha, rfl⟩ := hr
    unfold setRank
    by_cases hai : a.id = q.id
    · simp only [hai, if_true]
      exact hps q (List.mem_cons_self q qs)
    · simp only [hai, if_false]
      exact h a ha

/-- `remove` preserves the rank invariant. -/
theorem ranksGE1_remove (s : St) (i : Int) (h : ranksGE1 s = true) :
    ranksGE1 (remove s i).2 = true := by
  rw [ranksGE1_iff] at h ⊢
  intro r hr
  exact h r (List.mem_of_mem_filter hr)

/-- C2 amended: after any sequence of create, POST, update, updateRanks
and remove operations in which every explicitly supplied rank is ≥ 1
(a POST may also omit rank or send 0, which its handler defaults to 1),
every stored record has rank ≥ 1. The unrestricted claim is refuted by
`c2_counterexample`. -/
theorem c2_rank_ge_one_of_supplied_ranks_ok (s : St) (ops : List Op)
    (h0 : ranksGE1 s = true) (hops : ops.all rankOK = true) :
    ranksGE1 (runOps s ops) = true := by
  induction ops generalizing s with
  | nil => exact h0
  | cons op rest ih =>
    rw [List.all_cons, Bool.and_eq_true] at hops
    show ranksGE1 (runOps (runOp s op) rest) = true
    refine ih (runOp s op) ?_ hops.2
    have h1 := hops.1
    cases op with
    | createOp item now =>
      exact ranksGE1_create s item now h0 (by simpa [rankOK] using h1)
    | postOp body now =>
      apply ranksGE1_post s body now h0
      intro x hx
      rw [rankOK, hx] at h1
      simpa using h1
    | updateOp i p now =>
      apply ranksGE1_update s i p now h0
      intro x hx
      rw [rankOK, hx] at h1
      simpa using h1
    | ranksOp ps now =>
      rw [ranksGE1_iff]
      show ∀ r ∈ applyPairs now ps s.rows, 1 ≤ r.rank
      apply ranksGE1_applyPairs
      · intro q hq
        rw [rankOK] at h1
        have := List.all_eq_true.mp h1 q hq
        exact of_decide_eq_true this
      · exact (ranksGE1_iff s).mp h0
    | removeOp i =>
      exact ranksGE1_remove s i h0

/-- Witness for the amended C2 at a concrete input: a POST followed by a
reorder to rank 2 keeps every stored rank ≥ 1. -/
theorem c2_amended_witness :
    ranksGE1 (runOps St.empty [Op.postOp exBody 1, Op.ranksOp [⟨1, 2⟩] 2]) = true :=
  c2_rank_ge_one_of_supplied_ranks_ok St.empty
    [Op.postOp exBody 1, Op.ranksOp [⟨1, 2⟩] 2] (by decide) (by decide)

/-- C3, as stated, is false: when the backend fails during the write of
`update`, the adapter's `catch` returns `undefined` and the PUT handler
turns that into 404, not 500 — here at the concrete one-row store, id
segment "1" and a valid body. -/
theorem c3_counterexample :
    (PUTitemF true s1 "1" putBody 3).1.status = 404 ∧
      ¬ (PUTitemF true s1 "1" putBody 3).1.status = 500 := by decide

/-- C3 amended: a backend failure in `create` is rethrown and the POST
handler returns 500, and a failed `updateRanks` batch (aborted at any pair
index) reports `false` and the PATCH handler returns 500; but a backend
failure in `update` degrades to `undefined` and the PUT handler reports it
as 404 (indistinguishable from not-found), and likewise a failed `remove`
is a 404; reads degrade to an empty list / `undefined` (the collection GET
answers 200 with `[]`, the item GET 404). -/
theorem c3_backend_failure_surfacing (s : St) (body : ReqBody)
    (ps : List RankPair) (seg : String) (now : Nat) (k : Nat) (i : Int)
    (hbody : (falsyStr body.destination || falsyStr body.country) = false) :
    (POSTdestF true s body now).1.status = 500 ∧
      (PATCHdestF (some k) s (some ps) now).1.status = 500 ∧
      (PUTitemF true s seg body now).1.status = 404 ∧
      (DELETEitemF true s seg).1.status = 404 ∧
      getAllF true s = [] ∧
      getByIdF true s i = none ∧
      (GETitemF true s seg).status = 404 := by
  refine ⟨?_, rfl, ?_, ?_, rfl, rfl, ?_⟩
  · simp [POSTdestF, hbody, createF]
  · simp only [PUTitemF, hbody, Bool.false_eq_true, if_false]
    cases jsParseInt seg <;> simp [updateF]
  · simp only [DELETEitemF]
    cases jsParseInt seg <;> simp [removeF]
  · simp only [GETitemF]
    cases jsParseInt seg <;> simp [getByIdF]

/-- Witness for the amended C3 at a concrete input. -/
theorem c3_amended_witness :
    (POSTdestF true s1 putBody 3).1.status = 500 ∧
      (PATCHdestF (some 0) s1 (some [⟨1, 2⟩]) 3).1.status = 500 ∧
      (PUTitemF true s1 "1" putBody 3).1.status = 404 ∧
      (DELETEitemF true s1 "1").1.status = 404 ∧
      getAllF true s1 = [] ∧
      getByIdF true s1 1 = none ∧
      (GETitemF true s1 "1").status = 404 :=
  c3_backend_failure_surfacing s1 putBody [⟨1, 2⟩] "1" 3 0 1 (by decide)

/-- C8: a POST with `destination` or `country` missing (or empty — JS
falsiness) answers 400 and creates nothing; otherwise it answers 201 with
the created, stored record, in which each absent optional field took its
default: `rank` 1, `latitude`/`longitude` 0, `reason`/`budget`/`timeline`
the empty string (and an absent `image_url`, defaulted to `""` by the
handler, is stored as null by the adapter). -/
theorem c8_post_validation_and_defaults (s : St) (body : ReqBody) (now : Nat)
    (hwf : WF s = true) :
    ((falsyStr body.destination || falsyStr body.country) = true →
      (POSTdest s body now).1.status = 400 ∧ (POSTdest s body now).2 = s) ∧
    ((falsyStr body.destination || falsyStr body.country) = false →
      ∃ r, (POSTdest s body now).1 = ⟨201, RespBody.record r⟩ ∧
        getById (POSTdest s body now).2 r.id = some r ∧
        (body.rank = none → r.rank = 1) ∧
        (body.latitude = none → r.latitude = 0) ∧
        (body.longitude = none → r.longitude = 0) ∧
        (body.reason = none → r.reason = "") ∧
        (body.budget = none → r.budget = "") ∧
        (body.timeline = none → r.timeline = "") ∧
        (body.image_url = none → r.image_url = none)) := by
  constructor
  · intro h
    constructor <;> simp [POSTdest, POSTdestF, h]
  · intro h
    refine ⟨(create s (postItem body) now).1, ?_, ?_, ?_, ?_, ?_, ?_, ?_, ?_, ?_⟩
    · simp [POSTdest, POSTdestF, h, createF]
    · simpa [POSTdest, POSTdestF, h, createF] using
        getById_create s (postItem body) now hwf
    · intro hx; simp [create, postItem, orNum, hx]
    · intro hx; simp [create, postItem, orRat, hx]
    · intro hx; simp [create, postItem, orRat, hx]
    · intro hx; simp [create, postItem, orStr, hx]
    · intro hx; simp [create, postItem, orStr, hx]
    · intro hx; simp [create, postItem, orStr, hx]
    · intro hx; simp [create, postItem, orNull, orStr, hx]

/-- Witness for C8 at a concrete input (valid body, empty store). -/
theorem c8_witness :
    ((falsyStr exBody.destination || falsyStr exBody.country) = true →
      (POSTdest St.empty exBody 1).1.status = 400 ∧
        (POSTdest St.empty exBody 1).2 = St.empty) ∧
    ((falsyStr exBody.destination || falsyStr exBody.country) = false →
      ∃ r, (POSTdest St.empty exBody 1).1 = ⟨201, RespBody.record r⟩ ∧
        getById (POSTdest St.empty exBody 1).2 r.id = some r ∧
        (exBody.rank = none → r.rank = 1) ∧
        (exBody.latitude = none → r.latitude = 0) ∧
        (exBody.longitude = none → r.longitude = 0) ∧
        (exBody.reason = none → r.reason = "") ∧
        (exBody.budget = none → r.budget = "") ∧
        (exBody.timeline = none → r.timeline = "") ∧
        (exBody.image_url = none → r.image_url = none)) :=
  c8_post_validation_and_defaults St.empty exBody 1 (by decide)

/-- C9: an item request whose id segment matches no stored record — it
parses to `NaN` or to an integer that is no stored id — yields 404 (not 400
or 500) from GET, from PUT with a valid body, and from DELETE, and leaves
the store unchanged. -/
theorem c9_unknown_id_404 (s : St) (seg : String) (body : ReqBody) (now : Nat)
    (hid : idUnknown s seg = true)
    (hbody : (falsyStr body.destination || falsyStr body.country) = false) :
    (GETitem s seg).status = 404 ∧
      (PUTitem s seg body now).1.status = 404 ∧ (PUTitem s seg body now).2 = s ∧
      (DELETEitem s seg).1.status = 404 ∧ (DELETEitem s seg).2 = s := by
  unfold idUnknown at hid
  cases hj : jsParseInt seg with
  | none =>
    refine ⟨?_, ?_, ?_, ?_, ?_⟩ <;>
      simp [GETitem, GETitemF, PUTitem, PUTitemF, DELETEitem, DELETEitemF, hj, hbody]
  | some i =>
    rw [hj] at hid
    simp only [Option.isNone_iff_eq_none] at hid
    have hnone : getById s i = none := hid
    have hfind : s.rows.find? (fun r => decide (r.id = i)) = none := hnone
    have hcount : s.rows.countP (fun r => decide (r.id = i)) = 0 := by
      rw [List.countP_eq_zero]
      intro a ha
      simpa using List.find?_eq_none.mp hfind a ha
    have hfilter : s.rows.filter (fun r => !decide (r.id = i)) = s.rows := by
      rw [List.filter_eq_self]
      intro a ha
      simpa using List.find?_eq_none.mp hfind a ha
    refine ⟨?_, ?_, ?_, ?_, ?_⟩
    · simp [GETitem, GETitemF, hj, getByIdF, hnone]
    · simp [PUTitem, PUTitemF, hj, hbody, updateF, update, hnone]
    · simp [PUTitem, PUTitemF, hj, hbody, updateF, update, hnone]
    · simp [DELETEitem, DELETEitemF, hj, removeF, remove, hcount]
    · simp [DELETEitem, DELETEitemF, hj, removeF, remove, hcount, hfilter]

/-- Witness for C9 at a concrete input: segment "999" against the one-row
store (ids: 1 only). -/
theorem c9_witness :
    (GETitem s1 "999").status = 404 ∧
      (PUTitem s1 "999" putBody 3).1.status = 404 ∧
      (PUTitem s1 "999" putBody 3).2 = s1 ∧
      (DELETEitem s1 "999").1.status = 404 ∧ (DELETEitem s1 "999").2 = s1 :=
  c9_unknown_id_404 s1 "999" putBody 3 (by decide) (by decide)

/-- C10: an `image_url` that is absent, undefined or the empty string is
stored as null by `create` (`image_url || null`); in particular a POST
without `image_url` — whose handler substitutes the empty string — yields a
created record with `image_url` null, never the empty string. -/
theorem c10_absent_image_url_is_null (s : St) (item : NewDest) (now : Nat)
    (body : ReqBody)
    (hiu : item.image_url = none ∨ item.image_url = some "")
    (hbiu : body.image_url = none)
    (hbody : (falsyStr body.destination || falsyStr body.country) = false) :
    (create s item now).1.image_url = none ∧
      ∃ r, (POSTdest s body now).1 = ⟨201, RespBody.record r⟩ ∧
        r.image_url = none ∧ ¬ r.image_url = some "" := by
  constructor
  · rcases hiu with h | h <;> simp [create, orNull, h]
  · refine ⟨(create s (postItem body) now).1, ?_, ?_, ?_⟩
    · simp [POSTdest, POSTdestF, hbody, createF]
    · simp [create, postItem, orNull, orStr, hbiu]
    · simp [create, postItem, orNull, orStr, hbiu]

/-- Witness for C10 at a concrete input. -/
theorem c10_witness :
    (create St.empty tokyoItem 1).1.image_url = none ∧
      ∃ r, (POSTdest St.empty exBody 1).1 = ⟨201, RespBody.record r⟩ ∧
        r.image_url = none ∧ ¬ r.image_url = some "" :=
  c10_absent_image_url_is_null St.empty tokyoItem 1 exBody (Or.inl rfl) rfl (by decide)

/-- The batch loop, rows-first: applying pair after pair to the table equals
applying the whole batch to each row independently. -/
theorem applyPairs_eq_map (now : Nat) (ps : List RankPair) :
    ∀ rows : List Row, applyPairs now ps rows = rows.map (rowApply now ps) := by
  induction ps with
  | nil =>
    intro rows
    show rows = rows.map (fun r => r)
    simp
  | cons q qs ih =>
    intro rows
    show applyPairs now qs (rows.map (setRank now q)) = _
    rw [ih (rows.map (setRank now q)), List.map_map]
    rfl

/-- One row through the whole batch: the id picks the final rank, all other
payload fields survive; only `updated_at` may move. -/
theorem stripTime_rowApply (now : Nat) (ps : List RankPair) :
    ∀ r : Row, stripTime (rowApply now ps r) = keyUpd ps (stripTime r) := by
  induction ps with
  | nil => intro r; rfl
  | cons q qs ih =>
    intro r
    show stripTime (rowApply now qs (setRank now q r)) = keyUpd (q :: qs) (stripTime r)
    rw [ih (setRank now q r)]
    unfold setRank keyUpd
    by_cases hq : r.id = q.id
    · simp only [if_pos hq, stripTime]
      have hfr : finalRank (q :: qs) r.id r.rank
          = finalRank qs r.id (if r.id = q.id then q.rank else r.rank) := rfl
      rw [hfr, if_pos hq]
    · simp only [if_neg hq, stripTime]
      have hfr : finalRank (q :: qs) r.id r.rank
          = finalRank qs r.id (if r.id = q.id then q.rank else r.rank) := rfl
      rw [hfr, if_neg hq]

/-- Reapplying a batch does not move any final rank. -/
theorem finalRank_idem (ps : List RankPair) (i : Int) :
    ∀ d : Int, finalRank ps i (finalRank ps i d) = finalRank ps i d := by
  induction ps with
  | nil => intro d; rfl
  | cons q qs ih =>
    intro d
    by_cases hq : i = q.id
    · show finalRank qs i (if i = q.id then q.rank else finalRank (q :: qs) i d)
          = finalRank qs i (if i = q.id then q.rank else d)
      simp only [if_pos hq]
    · show finalRank qs i (if i = q.id then q.rank else finalRank (q :: qs) i d)
          = finalRank qs i (if i = q.id then q.rank else d)
      have hin : finalRank (q :: qs) i d
          = finalRank qs i (if i = q.id then q.rank else d) := rfl
      rw [hin]
      simp only [if_neg hq]
      exact ih d

/-- `keyUpd` is idempotent. -/
theorem keyUpd_idem (ps : List RankPair) (t : RowKey) :
    keyUpd ps (keyUpd ps t) = keyUpd ps t := by
  unfold keyUpd
  rw [finalRank_idem]

/-- A row put twice through the same batch differs from the once-updated
row at most in `updated_at`. -/
theorem stripTime_rowApply_twice (t1 t2 : Nat) (ps : List RankPair) (r : Row) :
    stripTime (rowApply t2 ps (rowApply t1 ps r)) = stripTime (rowApply t1 ps r) := by
  rw [stripTime_rowApply, stripTime_rowApply]
  exact keyUpd_idem ps (stripTime r)

/-- The table put twice through the same batch equals the once-updated
table up to `updated_at`. -/
theorem map_stripTime_applyPairs_twice (t1 t2 : Nat) (ps : List RankPair)
    (rows : List Row) :
    (applyPairs t2 ps (applyPairs t1 ps rows)).map stripTime
      = (applyPairs t1 ps rows).map stripTime := by
  rw [applyPairs_eq_map t1 ps rows, applyPairs_eq_map t2 ps (rows.map (rowApply t1 ps))]
  simp only [List.map_map, Function.comp_def]
  exact congrArg (fun f => List.map f rows)
    (funext fun a => stripTime_rowApply_twice t1 t2 ps a)

/-- C7: reordering is idempotent — applying the same `(id, rank)` mapping
twice in succession yields the same `list()` result as applying it once, up
to the refreshed `updated_at` timestamps (in particular the same records in
the same order). -/
theorem c7_reorder_idempotent (s : St) (ps : List RankPair) (t1 t2 : Nat) :
    (getAll (updateRanks (updateRanks s ps t1).2 ps t2).2).map stripTime
      = (getAll (updateRanks s ps t1).2).map stripTime := by
  show ((applyPairs t2 ps (applyPairs t1 ps s.rows)).insertionSort rankLe).map stripTime
      = ((applyPairs t1 ps s.rows).insertionSort rankLe).map stripTime
  rw [List.map_insertionSort rankLe keyLe stripTime _ (fun a _ b _ => Iff.rfl),
    List.map_insertionSort rankLe keyLe stripTime _ (fun a _ b _ => Iff.rfl),
    map_stripTime_applyPairs_twice]

/-- The latitude column's scaled decimal at the Tokyo input. -/
theorem scaled8_lat : scaled8 ((356762 : Rat) / 10000) = 3567620000 := by
  unfold scaled8
  rw [show ((356762 : Rat) / 10000 * ((10 : Rat)) ^ 8) = (3567620000 : Rat) by norm_num]
  norm_num

/-- The longitude column's scaled decimal at the Tokyo input. -/
theorem scaled8_long : scaled8 ((1396503 : Rat) / 10000) = 13965030000 := by
  unfold scaled8
  rw [show ((1396503 : Rat) / 10000 * ((10 : Rat)) ^ 8) = (13965030000 : Rat) by norm_num]
  norm_num

/-- `parseFloat` recovers the Tokyo latitude from the driver's string. -/
theorem jsParseFloat_lat : jsParseFloat "35.67620000" = (356762 : Rat) / 10000 := by
  have hp : floatParts "35.67620000" = (1, 35, 67620000, 8) := by decide
  unfold jsParseFloat
  rw [hp]
  norm_num

/-- `parseFloat` recovers the Tokyo longitude from the driver's string. -/
theorem jsParseFloat_long : jsParseFloat "139.65030000" = (1396503 : Rat) / 10000 := by
  have hp : floatParts "139.65030000" = (1, 139, 65030000, 8) := by decide
  unfold jsParseFloat
  rw [hp]
  norm_num

/-- C5: creating the Tokyo record and reading it back yields the same
destination and country and numeric (not string-typed) coordinates under
both backends: the SQLite backend returns the stored numbers, and the
Postgres backend's string-typed `DECIMAL` columns are normalized back to
the same numbers by `normalizeRow`'s `parseFloat`. -/
theorem c5_round_trip_both_backends :
    ∃ r, getAll (create St.empty tokyoItem 1).2 = [r] ∧
      r.destination = "Tokyo" ∧ r.country = "Japan" ∧
      r.latitude = (356762 : Rat) / 10000 ∧ r.longitude = (1396503 : Rat) / 10000 ∧
      sqliteVal r.latitude = SqlVal.num ((356762 : Rat) / 10000) ∧
      sqliteVal r.longitude = SqlVal.num ((1396503 : Rat) / 10000) ∧
      pgVal r.latitude = SqlVal.num ((356762 : Rat) / 10000) ∧
      pgVal r.longitude = SqlVal.num ((1396503 : Rat) / 10000) := by
  refine ⟨(create St.empty tokyoItem 1).1, rfl, rfl, rfl, rfl, rfl, rfl, rfl, ?_, ?_⟩
  · show pgVal ((356762 : Rat) / 10000) = SqlVal.num ((356762 : Rat) / 10000)
    unfold pgVal pgValRaw
    rw [scaled8_lat]
    rw [show decString8 3567620000 = "35.67620000" from rfl]
    simp only [normalizeVal]
    rw [jsParseFloat_lat]
  · show pgVal ((1396503 : Rat) / 10000) = SqlVal.num ((1396503 : Rat) / 10000)
    unfold pgVal pgValRaw
    rw [scaled8_long]
    rw [show decString8 13965030000 = "139.65030000" from rfl]
    simp only [normalizeVal]
    rw [jsParseFloat_long]
